import Mathlib

/-!
# Verification of the ESG automation assessment pipeline

A shallow embedding, in Lean 4, of the core assessment pipeline of the
`esg-automation` repository: the Evidence Gatherer (`src/lib/web-search.ts`),
the LLM Gateway and Structured-Output Extractor (`llm-client.ts`), the
Knowledge Base Loader (`rmf-loader.ts`), the DDQ Assessment Engine
(`src/lib/ddq-generator.ts`), the IM Assessment Engine (`im-generator.ts`)
and its HTTP route (`app/api/generate-im/route.ts`).

TypeScript functions become Lean functions; the external LLM providers, the
file system and the network are injected as explicit function parameters
(outcome maps), so every run of the embedded code is a pure computation over
a chosen environment.  JavaScript `Map` objects become association lists
with `Map.set` update semantics, promises that are awaited in sequence
become sequential evaluation, and `Promise.all` is modelled with an explicit
completion schedule to reason about the racing evidence batches.
-/

namespace ESG

/-! ## Data model (`src/lib/types.ts`) -/

/-- `CompanyInfo` from `src/lib/types.ts`. -/
structure CompanyInfo where
  companyName : String
  sector : String
  subSector : String
  countriesOfOperation : List String
  numberOfEmployees : String
  businessActivities : String
  productDescription : String
  currentESGPractices : Option String := none
  policies : Option String := none
  complianceStatus : Option String := none
  additionalInfo : Option String := none
  deriving DecidableEq, Repr

/-- `DDQAssessment` from `src/lib/types.ts`: one rubric row.  The TypeScript
`level` union type is modelled as a plain string, as no embedded code
inspects it. -/
structure DDQAssessment where
  area : String
  definition : String
  materiality : String
  level : String
  comments : String
  deriving DecidableEq, Repr

/-- The `trackRecord` field of `DDQResult` from `src/lib/types.ts`. -/
structure TrackRecord where
  regulatoryBreaches : Option String := none
  supplyChainIssues : Option String := none
  transparencyDisclosure : Option String := none
  renewableEnergy : Option String := none
  deriving DecidableEq, Repr

/-- `DDQResult` from `src/lib/types.ts`. -/
structure DDQResult where
  riskManagement : List DDQAssessment
  environment : List DDQAssessment
  social : List DDQAssessment
  governance : List DDQAssessment
  trackRecord : TrackRecord
  deriving DecidableEq, Repr

/-- `IMResult` from `src/lib/types.ts`. -/
structure IMResult where
  companyName : String
  productActivitySolution : String
  riskCategory : String
  grievanceRedressMechanism : String
  sector : String
  subSector : String
  countriesOfOperation : String
  numberOfEmployees : String
  currentRisks : List String
  currentOpportunities : List String
  longTermRisks : List String
  longTermOpportunities : List String
  foundersCommitment : String
  stakeholderConsultations : String
  potentialGrievances : String
  riskOfRetaliation : String
  gaps : List String
  actionPlan : List String
  estimatedCost : Option String := none
  timeframe : Option String := none
  limitations : Option (List String) := none
  deriving DecidableEq, Repr

/-- `SearchResult` from `src/lib/web-search.ts`.  The floating-point
`relevanceScore` is modelled over `ℚ` (the only score the code ever writes
is the literal `0.8`). -/
structure SearchResult where
  title : String
  url : String
  snippet : String
  relevanceScore : Option ℚ := none
  deriving DecidableEq, Repr

/-- `SearchResults` from `src/lib/web-search.ts`: the per-query record stored
in the result `Map`. -/
structure SearchResults where
  query : String
  results : List SearchResult
  timestamp : String
  deriving DecidableEq, Repr

/-! ## Generic JavaScript-modelling helpers -/

/-- ASCII lowering of one character, the fragment of
`String.prototype.toLowerCase` exercised by the embedded code. -/
def asciiLowerChar (c : Char) : Char :=
  if 'A' ≤ c ∧ c ≤ 'Z' then Char.ofNat (c.toNat + 32) else c

/-- `String.prototype.toLowerCase` on ASCII text. -/
def asciiLower (s : String) : String :=
  ⟨s.toList.map asciiLowerChar⟩

/-- Whether `needle` occurs as a contiguous run inside `haystack`. -/
def infixOfChars (needle : List Char) : List Char → Bool
  | [] => needle.isEmpty
  | c :: rest => needle.isPrefixOf (c :: rest) || infixOfChars needle rest

/-- `haystack.includes(needle)` for JavaScript strings. -/
def jsIncludes (haystack needle : String) : Bool :=
  infixOfChars needle.toList haystack.toList

/-- JavaScript string whitespace as far as the embedded code trims it. -/
def isJsSpace (c : Char) : Bool :=
  c = ' ' ∨ c = '\t' ∨ c = '\n' ∨ c = '\r'

/-- `String.prototype.trim`. -/
def jsTrim (s : String) : String :=
  ⟨((s.toList.dropWhile isJsSpace).reverse.dropWhile isJsSpace).reverse⟩

/-- `s.substring(0, n)` (also `s.take n` in Lean terms). -/
def jsTake (s : String) (n : Nat) : String :=
  ⟨s.toList.take n⟩

/-- `Map.prototype.set` on a JavaScript `Map` modelled as an association
list: replace in place when the key is present (a `Map` holds one entry per
key and `set` preserves insertion order), append otherwise. -/
def mapSet {α : Type} : List (String × α) → String → α → List (String × α)
  | [], k, v => [(k, v)]
  | p :: m, k, v => if p.1 = k then (k, v) :: m else p :: mapSet m k v

/-- `Map.prototype.get` on the same model. -/
def mapGet {α : Type} : List (String × α) → String → Option α
  | [], _ => none
  | p :: m, k => if p.1 = k then some p.2 else mapGet m k

/-! ## Evidence Gatherer (`src/lib/web-search.ts`) -/

/-- The outcome of one `openai.chat.completions.create` research call:
`.ok content` is the text the model returned (already defaulted to `""`
by `response.choices[0]?.message?.content || ''` when absent), `.error`
is a thrown transport/API error.  One such map models the provider for a
whole batch. -/
def SearchProvider : Type := String → Except Unit String

/-- The four negative-result sentinel phrases of
`src/lib/web-search.ts` lines 105-108, already lowercase as in the source. -/
def negativePhrases : List String :=
  ["no relevant information found", "no information found",
   "could not find", "not available in my knowledge"]

/-- Parsing of one research response, `src/lib/web-search.ts` lines 100-121:
if the lowercased content contains any negative-result phrase the topic
yields no results, otherwise the whole content becomes the single snippet
with the default relevance score `0.8`. -/
def parseSearchContent (fullQuery content : String) : List SearchResult :=
  if jsIncludes (asciiLower content) "no relevant information found" ||
      jsIncludes (asciiLower content) "no information found" ||
      jsIncludes (asciiLower content) "could not find" ||
      jsIncludes (asciiLower content) "not available in my knowledge" then
    []
  else
    [{ title := "Search Results: " ++ fullQuery,
       url := "OpenAI Knowledge Base",
       snippet := content,
       relevanceScore := some (0.8 : ℚ) }]

/-- The entry `searchCompanyInfo` stores for one topic `query`:
`results.set(query, {query: fullQuery, results, timestamp})` where
`results` comes from the response on success and is `[]` when the
provider call threw (the inner `catch` of lines 132-144). -/
def searchEntry (companyName : String) (respond : SearchProvider)
    (timestamp query : String) : SearchResults :=
  let fullQuery := companyName ++ " " ++ query
  match respond fullQuery with
  | .ok content =>
      { query := fullQuery, results := parseSearchContent fullQuery content,
        timestamp := timestamp }
  | .error _ =>
      { query := fullQuery, results := [], timestamp := timestamp }

/-- `searchCompanyInfo` of `src/lib/web-search.ts` lines 46-168: iterate the
topic queries in order, set one entry per topic into the result map, never
propagating a per-query failure.  The outer `catch` of lines 152-167 is
unreachable in this model because the only failing operation (the provider
call) is already absorbed per query. -/
def searchCompanyInfo (companyName : String) (queries : List String)
    (respond : SearchProvider) (timestamp : String) :
    List (String × SearchResults) :=
  queries.foldl
    (fun results query =>
      mapSet results query (searchEntry companyName respond timestamp query))
    []

/-- The five track-record topics of `searchTrackRecord`
(`src/lib/web-search.ts` lines 175-181). -/
def trackRecordQueries : List String :=
  ["regulatory breaches ESG compliance violations",
   "supply chain violations labor issues",
   "financial audit qualified opinion restatement",
   "ESG reporting sustainability disclosure",
   "transparency disclosure public records"]

/-- The five ESG-practice topics of `searchESGPractices`
(`src/lib/web-search.ts` lines 191-197). -/
def esgQueries : List String :=
  ["ESG policy sustainability practices",
   "environmental policy climate action",
   "social responsibility labor standards",
   "governance policies board structure",
   "ESG reporting sustainability report"]

/-- `searchTrackRecord` (`src/lib/web-search.ts` lines 174-185):
`Array.from(results.values())` over the map built from the track-record
topics. -/
def searchTrackRecord (companyName : String) (respond : SearchProvider)
    (timestamp : String) : List SearchResults :=
  (searchCompanyInfo companyName trackRecordQueries respond timestamp).map
    (fun p => p.2)

/-- `searchESGPractices` (`src/lib/web-search.ts` lines 190-201). -/
def searchESGPractices (companyName : String) (respond : SearchProvider)
    (timestamp : String) : List SearchResults :=
  (searchCompanyInfo companyName esgQueries respond timestamp).map
    (fun p => p.2)

/-- `formatSearchResultsForPrompt` (`src/lib/web-search.ts` lines 206-235)
applied to a list of result records. -/
def formatSearchResultsForPrompt (searchResults : List SearchResults) :
    String :=
  let header := "\n\n=== WEB SEARCH RESULTS (External Verification) ===\n"
  if searchResults.length = 0 ||
      searchResults.all (fun sr => sr.results.length = 0) then
    header ++ "No additional information found through web search.\n"
  else
    let body := searchResults.foldl
      (fun acc sr =>
        if sr.results.length > 0 then
          acc ++ "\nQuery: \"" ++ sr.query ++ "\"\n" ++
            (sr.results.foldl
              (fun (st : String × Nat) result =>
                (st.1 ++ "Result " ++ toString (st.2 + 1) ++ ":\n" ++
                  "  " ++ result.snippet ++ "\n" ++
                  (if result.url ≠ "" ∧ result.url ≠ "OpenAI Knowledge Base"
                   then "  Source: " ++ result.url ++ "\n" else "") ++ "\n",
                 st.2 + 1))
              ("", 0)).1
        else acc)
      ""
    header ++ body ++ "=== END WEB SEARCH RESULTS ===\n"

/-! ## JSON values and `JSON.parse` (the parsing backend of `callLLMJSON`) -/

/-- A JSON value.  Numbers are modelled over `ℚ` (every JSON numeral denotes
a decimal rational). -/
inductive Json where
  | null : Json
  | bool (b : Bool) : Json
  | num (q : ℚ) : Json
  | str (s : String) : Json
  | arr (elems : List Json) : Json
  | obj (fields : List (String × Json)) : Json
  deriving Repr

/-- JSON whitespace (`ws` of RFC 8259). -/
def isJsonSpace (c : Char) : Bool :=
  c = ' ' ∨ c = '\t' ∨ c = '\n' ∨ c = '\r'

/-- Skip JSON whitespace. -/
def skipJsonSpace (s : List Char) : List Char :=
  s.dropWhile isJsonSpace

/-- The value of one hexadecimal digit. -/
def hexDigitVal (c : Char) : Option Nat :=
  if '0' ≤ c ∧ c ≤ '9' then some (c.toNat - '0'.toNat)
  else if 'a' ≤ c ∧ c ≤ 'f' then some (c.toNat - 'a'.toNat + 10)
  else if 'A' ≤ c ∧ c ≤ 'F' then some (c.toNat - 'A'.toNat + 10)
  else none

/-- Decimal digits to a natural number. -/
def digitsToNat (ds : List Char) : Nat :=
  ds.foldl (fun n c => n * 10 + (c.toNat - '0'.toNat)) 0

/-- Parse the body of a JSON string literal (after the opening quote),
returning the decoded characters and the rest of the input. -/
def parseStringBody : Nat → List Char → Option (List Char × List Char)
  | 0, _ => none
  | _, [] => none
  | fuel + 1, c :: rest =>
    if c = '"' then some ([], rest)
    else if c = '\\' then
      match rest with
      | [] => none
      | e :: rest' =>
        if e = 'u' then
          match rest' with
          | h1 :: h2 :: h3 :: h4 :: rest'' =>
            match hexDigitVal h1, hexDigitVal h2, hexDigitVal h3,
                hexDigitVal h4 with
            | some a, some b, some cc, some d =>
              (parseStringBody fuel rest'').map
                (fun r =>
                  (Char.ofNat (((a * 16 + b) * 16 + cc) * 16 + d) :: r.1, r.2))
            | _, _, _, _ => none
          | _ => none
        else
          let dec : Option Char :=
            if e = '"' then some '"'
            else if e = '\\' then some '\\'
            else if e = '/' then some '/'
            else if e = 'b' then some (Char.ofNat 8)
            else if e = 'f' then some (Char.ofNat 12)
            else if e = 'n' then some '\n'
            else if e = 'r' then some '\r'
            else if e = 't' then some '\t'
            else none
          match dec with
          | some d => (parseStringBody fuel rest').map (fun r => (d :: r.1, r.2))
          | none => none
    else if c.toNat < 32 then none
    else (parseStringBody fuel rest).map (fun r => (c :: r.1, r.2))

/-- Parse a JSON number (RFC 8259 `number` grammar, as accepted by
`JSON.parse`): optional minus, integer part without leading zeros, optional
fraction, optional exponent. -/
def parseJsonNumber (s : List Char) : Option (ℚ × List Char) :=
  let (neg, s1) := match s with
    | '-' :: t => (true, t)
    | _ => (false, s)
  let intDigits := s1.takeWhile Char.isDigit
  if intDigits.isEmpty then none
  else if intDigits.length > 1 ∧ intDigits.headD 'x' = '0' then none
  else
    let s2 := s1.drop intDigits.length
    let fracPart : Option (List Char × List Char) := match s2 with
      | '.' :: t =>
        let f := t.takeWhile Char.isDigit
        if f.isEmpty then none else some (f, t.drop f.length)
      | _ => some ([], s2)
    match fracPart with
    | none => none
    | some (fracDigits, s3) =>
      let expPart : Option (Bool × List Char × List Char) := match s3 with
        | 'e' :: t | 'E' :: t =>
          let (eneg, t1) := match t with
            | '+' :: u => (false, u)
            | '-' :: u => (true, u)
            | _ => (false, t)
          let e := t1.takeWhile Char.isDigit
          if e.isEmpty then none else some (eneg, e, t1.drop e.length)
        | _ => some (false, [], s3)
      match expPart with
      | none => none
      | some (eneg, expDigits, s4) =>
        let mant : Int := digitsToNat (intDigits ++ fracDigits)
        let e := digitsToNat expDigits
        let scaled : ℚ :=
          if eneg then mkRat mant (10 ^ (fracDigits.length + e))
          else mkRat (mant * 10 ^ e) (10 ^ fracDigits.length)
        some ((if neg then -scaled else scaled), s4)

/-- The three productions of the JSON grammar the recursive-descent parser
distinguishes: a value, the tail of a non-empty array, the tail of a
non-empty object. -/
inductive JMode where
  | val
  | elems
  | fields
  deriving DecidableEq, Repr

/-- The recursive-descent JSON parser, structurally recursive on `fuel`
(which dominates the input length, so well-formed inputs never exhaust it).
In `.elems` mode it parses the non-empty element list of an array up to and
including `]`, returning `.arr`; in `.fields` mode the non-empty member
list of an object up to and including the closing brace, returning
`.obj`. -/
def parseJsonCore : Nat → JMode → List Char → Option (Json × List Char)
  | 0, _, _ => none
  | fuel + 1, .val, s =>
    (match skipJsonSpace s with
    | [] => none
    | c :: rest =>
      if c = 'n' then
        match rest with
        | 'u' :: 'l' :: 'l' :: r => some (.null, r)
        | _ => none
      else if c = 't' then
        match rest with
        | 'r' :: 'u' :: 'e' :: r => some (.bool true, r)
        | _ => none
      else if c = 'f' then
        match rest with
        | 'a' :: 'l' :: 's' :: 'e' :: r => some (.bool false, r)
        | _ => none
      else if c = '"' then
        (parseStringBody (rest.length + 1) rest).map
          (fun r => (.str ⟨r.1⟩, r.2))
      else if c = '[' then
        match skipJsonSpace rest with
        | ']' :: r => some (.arr [], r)
        | _ => parseJsonCore fuel .elems rest
      else if c = '{' then
        match skipJsonSpace rest with
        | '}' :: r => some (.obj [], r)
        | _ => parseJsonCore fuel .fields rest
      else
        (parseJsonNumber (c :: rest)).map (fun r => (.num r.1, r.2)))
  | fuel + 1, .elems, s =>
    (match parseJsonCore fuel .val s with
    | none => none
    | some (v, rest) =>
      match skipJsonSpace rest with
      | ']' :: r => some (.arr [v], r)
      | ',' :: r =>
        match parseJsonCore fuel .elems r with
        | some (.arr t, r2) => some (.arr (v :: t), r2)
        | _ => none
      | _ => none)
  | fuel + 1, .fields, s =>
    (match skipJsonSpace s with
    | '"' :: rest =>
      (match parseStringBody (rest.length + 1) rest with
      | none => none
      | some (key, rest1) =>
        match skipJsonSpace rest1 with
        | ':' :: rest2 =>
          (match parseJsonCore fuel .val rest2 with
          | none => none
          | some (v, rest3) =>
            match skipJsonSpace rest3 with
            | '}' :: r => some (.obj [(⟨key⟩, v)], r)
            | ',' :: r =>
              match parseJsonCore fuel .fields r with
              | some (.obj t, r2) => some (.obj ((⟨key⟩, v) :: t), r2)
              | _ => none
            | _ => none)
        | _ => none)
    | _ => none)

/-- `JSON.parse`: parse one JSON text completely (only trailing whitespace
may remain), `none` on any syntax error. -/
def jsonParse (s : String) : Option Json :=
  let cs := s.toList
  match parseJsonCore (2 * cs.length + 2) .val cs with
  | some (v, rest) => if skipJsonSpace rest = [] then some v else none
  | none => none

/-! ## LLM Gateway (`llm-client.ts`, `src/unnamed/part_004`) -/

/-- The two providers of `type LLMProvider = 'openai' | 'anthropic'`. -/
inductive LLMProvider where
  | openai
  | anthropic
  deriving DecidableEq, Repr

/-- The response shape of `callLLM` (`LLMResponse`): content plus optional
`(promptTokens, completionTokens)` usage. -/
structure LLMResponse where
  content : String
  usage : Option (Nat × Nat) := none
  deriving DecidableEq, Repr

/-- One provider backend: `(prompt, systemPrompt) ↦` response or thrown
error message.  Models the `openai.chat.completions.create` /
`anthropic.messages.create` calls. -/
def Backend : Type := String → Option String → Except String LLMResponse

/-- The process environment and provider stubs `callLLM` runs against:
presence of the two API keys, and one backend per provider. -/
structure LLMEnv where
  openaiKey : Bool
  anthropicKey : Bool
  openaiBackend : Backend
  anthropicBackend : Backend

/-- The `catch` block of `callLLM` (`part_004` lines 147-185): rewrite the
thrown error by message sniffing (authentication / rate limit / timeout),
otherwise rethrow unchanged. -/
def classifyLLMError (provider : LLMProvider) (msg : String) : String :=
  if jsIncludes msg "API key" || jsIncludes msg "authentication" then
    "LLM API authentication failed. Please check your " ++
      (match provider with
       | .openai => "OPENAI"
       | .anthropic => "ANTHROPIC") ++ " API key."
  else if jsIncludes msg "rate limit" || jsIncludes msg "429" then
    "LLM API rate limit exceeded. Please try again later."
  else if jsIncludes msg "timeout" || jsIncludes msg "ETIMEDOUT" then
    "LLM API request timed out. Please try again."
  else msg

/-- `callLLM` (`part_004` lines 59-186).  The provider branch is taken only
when `'anthropic'` is selected *and* its key is present; everything else —
including `'anthropic'` without a key — runs the `// Default to OpenAI`
branch, which throws `OPENAI_API_KEY is not set` when that key is absent
(the throw passes through the `catch` classifier unchanged, since the
message contains neither `API key` nor `authentication`). -/
def callLLM (env : LLMEnv) (prompt : String) (systemPrompt : Option String)
    (provider : LLMProvider) : Except String LLMResponse :=
  if provider = .anthropic ∧ env.anthropicKey then
    match env.anthropicBackend prompt systemPrompt with
    | .ok r => .ok r
    | .error e => .error (classifyLLMError .anthropic e)
  else
    if !env.openaiKey then
      .error (classifyLLMError provider "OPENAI_API_KEY is not set")
    else
      match env.openaiBackend prompt systemPrompt with
      | .ok r => .ok r
      | .error e => .error (classifyLLMError provider e)

/-! ## Structured-Output Extractor (`callLLMJSON`, `part_004` lines 191-257) -/

/-- Remove every occurrence of `tok` followed by an optional newline: one
global-replace pass of `content.replace(/<tok>\n?/g, '')`. -/
def stripTokenAux (tok : List Char) : Nat → List Char → List Char
  | 0, s => s
  | _, [] => []
  | fuel + 1, c :: rest =>
    if tok.isPrefixOf (c :: rest) then
      let after := (c :: rest).drop tok.length
      let after := match after with
        | '\n' :: t => t
        | _ => after
      stripTokenAux tok fuel after
    else
      c :: stripTokenAux tok fuel rest

/-- The two markdown-defencing passes of `callLLMJSON` line 217:
`.replace(/\x60\x60\x60json\n?/g, '').replace(/\x60\x60\x60\n?/g, '')`. -/
def stripJsonFences (s : String) : String :=
  let pass1 := stripTokenAux "```json".toList s.toList.length s.toList
  ⟨stripTokenAux "```".toList pass1.length pass1⟩

/-- The index of the last occurrence of `c`, if any. -/
def lastIdxOf (c : Char) (s : List Char) : Option Nat :=
  (s.reverse.findIdx? (fun x => x = c)).map (fun i => s.length - 1 - i)

/-- The brace-span extraction of `callLLMJSON` lines 220-223:
`cleaned.match(/\{[\s\S]*\}/)` matches from the first `\x7b` to the last
`\x7d` when the last `\x7d` lies after the first `\x7b`; on a match the
span replaces the cleaned text, otherwise the text is kept unchanged. -/
def extractBraceSpan (s : String) : String :=
  let cs := s.toList
  match cs.findIdx? (fun x => x = '{'), lastIdxOf '}' cs with
  | some i, some j =>
    if i < j then ⟨(cs.drop i).take (j - i + 1)⟩ else s
  | _, _ => s

/-- The response-processing tail of `callLLMJSON` (`part_004` lines
206-245), applied to the raw `response.content` returned by `callLLM`:
empty-response check, fence stripping, trim, brace-span extraction,
`JSON.parse`, and the thrown diagnostic carrying the first 200 characters
of the raw response.  The diagnostic is thrown not only on parse failure:
the success path evaluates `Object.keys(parsed as object)` for its log
line (line 231) still inside the `try`, and `Object.keys(null)` throws a
TypeError — so a cleaned text that parses to top-level JSON `null` is
converted by the inner `catch` to the same Invalid-JSON error.  (Among the
values `JSON.parse` can produce, only `null` makes `Object.keys` throw:
strings, numbers and booleans are object-coerced.) -/
def parseLLMJSONContent (content : String) : Except String Json :=
  if jsTrim content = "" then .error "LLM returned empty response"
  else
    let cleaned := jsTrim (stripJsonFences content)
    let cleaned := extractBraceSpan cleaned
    match jsonParse cleaned with
    | some .null =>
      .error ("Invalid JSON response from LLM. Response preview: " ++
        jsTake content 200 ++ "...")
    | some v => .ok v
    | none =>
      .error ("Invalid JSON response from LLM. Response preview: " ++
        jsTake content 200 ++ "...")

/-- `callLLMJSON` (`part_004` lines 191-257): append the JSON-only
instruction to the prompt, call `callLLM`, then run the extractor on the
response content.  Gateway errors propagate unchanged. -/
def callLLMJSON (env : LLMEnv) (prompt : String) (systemPrompt : Option String)
    (provider : LLMProvider) : Except String Json :=
  match callLLM env
      (prompt ++ "\n\nRespond with valid JSON only, no markdown formatting.")
      systemPrompt provider with
  | .error e => .error e
  | .ok response => parseLLMJSONContent response.content

/-! ## Knowledge Base Loader (`rmf-loader.ts`, `src/unnamed/part_003`
lines 258-339) -/

/-- One candidate location of `ESG_RMF.txt` as `loadRMF` probes it:
`fs.existsSync` answers whether the path exists, and reading an existing
path either yields its content or throws. -/
inductive PathState where
  | absent
  | unreadable
  | readable (content : String)
  deriving DecidableEq, Repr

/-- `fs.existsSync` on one candidate path. -/
def PathState.found : PathState → Bool
  | .absent => false
  | _ => true

/-- The process state `loadRMF` runs against: the ordered candidate paths
(`possiblePaths`, three in the source), the production flag
(`NODE_ENV === 'production' || VERCEL === '1'`), and the outcome of
`fetch(baseUrl + '/ESG_RMF.txt')` — `.ok` is a 2xx body, `.error` a
non-ok status or a network failure. -/
structure RMFWorld where
  localFiles : List PathState
  production : Bool
  fetchResult : Except String String

/-- How many underlying accesses one `loadRMF` call performed:
`fs.readFileSync` attempts and network fetches. -/
structure RMFEffects where
  fileReads : Nat
  fetches : Nat
  deriving DecidableEq, Repr

/-- JavaScript truthiness of the `cachedRMF` module variable: `null` and
the empty string are falsy, every other string truthy. -/
def jsTruthyCache (cache : Option String) : Bool :=
  match cache with
  | none => false
  | some s => s ≠ ""

/-- The final error of `loadRMF` (lines 336-338). -/
def rmfUnavailableMsg : String :=
  "ESG_RMF.txt not found. Please ensure the file exists in the public directory and is committed to Git."

/-- The fetch fallback of `loadRMF` (lines 304-333), entered only in
production: on a 2xx response the body is cached *before* the emptiness
check, a blank body or any fetch failure falls through to the final
error. -/
def rmfFetchPhase (world : RMFWorld) (cache : Option String) :
    Except String String × Option String × Nat :=
  if world.production then
    match world.fetchResult with
    | .ok text =>
      if text = "" ∨ jsTrim text = "" then
        (.error rmfUnavailableMsg, some text, 1)
      else
        (.ok text, some text, 1)
    | .error _ => (.error rmfUnavailableMsg, cache, 1)
  else
    (.error rmfUnavailableMsg, cache, 0)

/-- One call of `loadRMF` (`part_003` lines 269-339) against process state
`world` with module cache `cache`.  Returns the call's outcome, the cache
afterwards, and the underlying accesses performed.  Control flow of the
source: cache hit → return; else probe `possiblePaths` with
`fs.existsSync` and read the *first* existing one — a successful read is
cached and returned, a failed read falls through to the fetch phase, as
does finding no path at all. -/
def loadRMF (world : RMFWorld) (cache : Option String) :
    Except String String × Option String × RMFEffects :=
  if jsTruthyCache cache then
    (.ok ((cache.getD "")), cache, ⟨0, 0⟩)
  else
    match world.localFiles.find? PathState.found with
    | some (.readable content) => (.ok content, some content, ⟨1, 0⟩)
    | some _ =>
      let f := rmfFetchPhase world cache
      (f.1, f.2.1, ⟨1, f.2.2⟩)
    | none =>
      let f := rmfFetchPhase world cache
      (f.1, f.2.1, ⟨0, f.2.2⟩)

/-- Two consecutive `loadRMF` calls in one process, starting from the
initial `cachedRMF = null`: both outcomes and the total effects. -/
def loadRMFTwice (world : RMFWorld) :
    Except String String × Except String String × RMFEffects :=
  let first := loadRMF world none
  let second := loadRMF world first.2.1
  (first.1, second.1,
    ⟨first.2.2.fileReads + second.2.2.fileReads,
     first.2.2.fetches + second.2.2.fetches⟩)

/-! ## DDQ Assessment Engine (`src/lib/ddq-generator.ts`) -/

/-- The `companyContext` template literal of `generateDDQ` (lines 36-50):
profile fields, optional narrative lines, the first 5000 characters of the
extracted text when present, and the formatted search results. -/
def ddqCompanyContext (info : CompanyInfo) (extractedText : Option String)
    (searchResultsText : String) : String :=
  "\nCompany Information:\n" ++
  "- Name: " ++ info.companyName ++ "\n" ++
  "- Sector: " ++ info.sector ++ "\n" ++
  "- Sub-sector: " ++ info.subSector ++ "\n" ++
  "- Countries of Operation: " ++
    String.intercalate ", " info.countriesOfOperation ++ "\n" ++
  "- Number of Employees: " ++ info.numberOfEmployees ++ "\n" ++
  "- Business Activities: " ++ info.businessActivities ++ "\n" ++
  "- Product/Service: " ++ info.productDescription ++ "\n" ++
  (match info.currentESGPractices with
   | some p => "- Current ESG Practices: " ++ p
   | none => "") ++ "\n" ++
  (match info.policies with
   | some p => "- Policies: " ++ p
   | none => "") ++ "\n" ++
  (match info.complianceStatus with
   | some p => "- Compliance Status: " ++ p
   | none => "") ++ "\n" ++
  (match extractedText with
   | some t => "\nAdditional Information from Documents:\n" ++ jsTake t 5000
   | none => "") ++ "\n" ++
  searchResultsText ++ "\n"

/-- The fixed `levelDefinitions` block of `generateDDQ` (lines 53-133).
Its full text (the per-area Non-existent/Level-0 reference) is inert
prompt prose that no theorem below inspects; this constant keeps its
opening words and stands for the whole literal. -/
def levelDefinitionsText : String :=
  "\nCRITICAL LEVEL DEFINITIONS (read carefully before determining levels): ...\n"

/-- The fixed assessment-instruction block of the `generateDDQ` prompt
(lines 145-368): materiality heuristics, comment rules and the output
schema naming every required area.  Inert prompt prose, abbreviated as
above. -/
def ddqInstructionsText : String :=
  "ASSESSMENT INSTRUCTIONS: ... Return a JSON object with this exact structure: ...\n"

/-- The full user prompt of `generateDDQ` (lines 135-368). -/
def ddqPrompt (companyContext levelDefinitions rmf : String) : String :=
  "\nYou are an ESG assessment expert. Using the ESG Risk Management Framework provided below, assess the company and fill out the Due Diligence Questionnaire.\n\n" ++
  companyContext ++ "\n\n" ++ levelDefinitions ++
  "\n\nESG Risk Management Framework:\n" ++ rmf ++ "\n\n" ++
  ddqInstructionsText

/-- The system prompt of the `callLLMJSON` call in `generateDDQ`
(lines 373-401).  Abbreviated inert prompt prose. -/
def ddqSystemPrompt : String :=
  "You are an expert ESG assessor. Analyze companies against the Golden Gate Ventures ESG Risk Management Framework and provide accurate, detailed assessments. ..."

/-- The environment `generateDDQ` runs against: the Knowledge Base Loader
outcome, the research provider behind both Evidence Gatherer batches, the
shared timestamp, and the typed gateway
`callLLMJSON<DDQResult>(prompt, system, 'openai')` — modelled after the
parse, so it returns the parsed `DDQResult` (or a thrown error). -/
structure DDQEnv where
  rmf : Except String String
  respond : SearchProvider
  timestamp : String
  callJSON : String → String → Except String DDQResult

/-- `generateDDQ` (`src/lib/ddq-generator.ts` lines 9-409): load the RMF
(fatal on failure), run the two evidence batches (each wrapped in
`.catch(err => [])`, unreachable here because `searchCompanyInfo` absorbs
per-query failures), merge by concatenation, assemble the prompt, call the
gateway, and return its parsed result as-is — no validation, repair or
modification of the parsed payload. -/
def generateDDQ (env : DDQEnv) (info : CompanyInfo)
    (extractedText : Option String) : Except String DDQResult := do
  let rmf ← env.rmf
  let trackRecordResults :=
    searchTrackRecord info.companyName env.respond env.timestamp
  let esgPracticeResults :=
    searchESGPractices info.companyName env.respond env.timestamp
  let allSearchResults := trackRecordResults ++ esgPracticeResults
  let searchResultsText := formatSearchResultsForPrompt allSearchResults
  let companyContext := ddqCompanyContext info extractedText searchResultsText
  let prompt := ddqPrompt companyContext levelDefinitionsText rmf
  env.callJSON prompt ddqSystemPrompt

/-! ## The racing evidence batches of `generateDDQ` (lines 19-32) -/

/-- The two concurrently dispatched Evidence Gatherer batches. -/
inductive EvidenceBatch where
  | track
  | esg
  deriving DecidableEq, Repr

/-- The result one batch settles with (its promise already carries the
`.catch(err => [])` handler, so it never rejects). -/
def runEvidenceBatch (companyName : String) (respond : SearchProvider)
    (timestamp : String) : EvidenceBatch → List SearchResults
  | .track => searchTrackRecord companyName respond timestamp
  | .esg => searchESGPractices companyName respond timestamp

/-- One batch settling: its result is written into its *positional* slot
of the `Promise.all` result array, whatever the completion order. -/
def evidenceStep (companyName : String) (respond : SearchProvider)
    (timestamp : String)
    (s : Option (List SearchResults) × Option (List SearchResults))
    (b : EvidenceBatch) :
    Option (List SearchResults) × Option (List SearchResults) :=
  match b with
  | .track => (some (runEvidenceBatch companyName respond timestamp .track), s.2)
  | .esg => (s.1, some (runEvidenceBatch companyName respond timestamp .esg))

/-- `Promise.all([searchTrackRecord(...), searchESGPractices(...)])` under
an explicit completion schedule: the batches settle in the order given by
`sched`, each settling batch writes its result into its positional slot,
and the promise resolves only once both slots are filled — with the slots
in positional order, not completion order. -/
def promiseAllEvidence (companyName : String) (respond : SearchProvider)
    (timestamp : String) (sched : List EvidenceBatch) :
    Option (List SearchResults × List SearchResults) :=
  let slots := sched.foldl (evidenceStep companyName respond timestamp)
    (none, none)
  match slots with
  | (some t, some e) => some (t, e)
  | _ => none

/-- The merged evidence list of `generateDDQ` line 31,
`[...trackRecordResults, ...esgPracticeResults]`, as produced by a run
whose batches complete in the order `sched` (`none` while a batch is still
pending). -/
def mergedEvidence (companyName : String) (respond : SearchProvider)
    (timestamp : String) (sched : List EvidenceBatch) :
    Option (List SearchResults) :=
  (promiseAllEvidence companyName respond timestamp sched).map
    (fun p => p.1 ++ p.2)

/-! ## IM Assessment Engine (`im-generator.ts`, second document of
`src/lib/web-search.ts`) and its route (`app/api/generate-im/route.ts`,
`src/unnamed/part_006`) -/

/-- Minimal JSON rendering used to model
`JSON.stringify(ddqResult, null, 2)` in the IM prompt (whitespace layout
aside). -/
def renderJsonString (s : String) : String :=
  "\"" ++ ⟨s.toList.foldr
    (fun c acc =>
      if c = '"' then '\\' :: '"' :: acc
      else if c = '\\' then '\\' :: '\\' :: acc
      else if c = '\n' then '\\' :: 'n' :: acc
      else c :: acc) []⟩ ++ "\""

/-- One rubric row as a JSON object text. -/
def renderAssessment (a : DDQAssessment) : String :=
  "\x7b\"area\":" ++ renderJsonString a.area ++
  ",\"definition\":" ++ renderJsonString a.definition ++
  ",\"materiality\":" ++ renderJsonString a.materiality ++
  ",\"level\":" ++ renderJsonString a.level ++
  ",\"comments\":" ++ renderJsonString a.comments ++ "\x7d"

/-- An optional track-record field as a JSON member (absent fields are
omitted, as `JSON.stringify` omits `undefined`). -/
def renderTrackField (name : String) : Option String → String
  | none => ""
  | some v => ",\"" ++ name ++ "\":" ++ renderJsonString v

/-- `JSON.stringify(ddqResult)` modulo whitespace layout. -/
def serializeDDQ (d : DDQResult) : String :=
  let cat := fun (xs : List DDQAssessment) =>
    "[" ++ String.intercalate "," (xs.map renderAssessment) ++ "]"
  "\x7b\"riskManagement\":" ++ cat d.riskManagement ++
  ",\"environment\":" ++ cat d.environment ++
  ",\"social\":" ++ cat d.social ++
  ",\"governance\":" ++ cat d.governance ++
  ",\"trackRecord\":\x7b" ++
    (jsTrim (renderTrackField "regulatoryBreaches" d.trackRecord.regulatoryBreaches ++
      renderTrackField "supplyChainIssues" d.trackRecord.supplyChainIssues ++
      renderTrackField "transparencyDisclosure" d.trackRecord.transparencyDisclosure ++
      renderTrackField "renewableEnergy" d.trackRecord.renewableEnergy)) ++
  "\x7d\x7d"

/-- The fixed Helicare-template block of the `generateIM` prompt
(`web-search.ts` second document, lines 278-364): inert prompt prose,
abbreviated; no theorem below inspects it. -/
def imTemplateText : String :=
  "CRITICAL: Follow the EXACT format from the Helicare_ESG_IM template: ... Return a JSON object with this exact structure: ...\n"

/-- The user prompt of `generateIM` (lines 268-364): company context, the
DDQ result serialized verbatim, the full RMF, and the fixed template
block. -/
def imPrompt (info : CompanyInfo) (ddq : DDQResult)
    (extractedText : Option String) (rmf : String) : String :=
  "\nYou are an ESG investment analyst. Using the ESG Risk Management Framework and the DDQ assessment results, create an Investment Memo following the EXACT template structure from the Helicare example.\n\n" ++
  "\nCompany Information:\n" ++
  "- Name: " ++ info.companyName ++ "\n" ++
  "- Sector: " ++ info.sector ++ "\n" ++
  "- Sub-sector: " ++ info.subSector ++ "\n" ++
  "- Countries of Operation: " ++
    String.intercalate ", " info.countriesOfOperation ++ "\n" ++
  "- Number of Employees: " ++ info.numberOfEmployees ++ "\n" ++
  "- Business Activities: " ++ info.businessActivities ++ "\n" ++
  "- Product/Service: " ++ info.productDescription ++ "\n" ++
  (match extractedText with
   | some t => "\nAdditional Information from Documents:\n" ++ jsTake t 5000
   | none => "") ++ "\n\n" ++
  "\nDDQ Assessment Summary:\n" ++ serializeDDQ ddq ++ "\n\n" ++
  "ESG Risk Management Framework:\n" ++ rmf ++ "\n\n" ++
  imTemplateText

/-- The system prompt of the `callLLMJSON` call in `generateIM`
(line 367). -/
def imSystemPrompt : String :=
  "You are an expert ESG investment analyst. Create detailed investment memos based on ESG assessments and the Golden Gate Ventures framework."

/-- The environment `generateIM` and its route run against: key presence
for the route's configuration check, the Knowledge Base Loader outcome,
and the typed gateway `callLLMJSON<IMResult>` (modelled after the
parse). -/
structure IMEnv where
  openaiKey : Bool
  anthropicKey : Bool
  rmf : Except String String
  callJSON : String → String → Except String IMResult

/-- `generateIM` (`web-search.ts` second document, lines 244-372): load the
RMF, assemble the prompt from profile + serialized DDQ + RMF + template,
call the gateway once.  The second component counts the LLM Gateway calls
the invocation performed. -/
def generateIM (env : IMEnv) (info : CompanyInfo) (ddq : DDQResult)
    (extractedText : Option String) : Except String IMResult × Nat :=
  match env.rmf with
  | .error e => (.error e, 0)
  | .ok rmf => (env.callJSON (imPrompt info ddq extractedText rmf) imSystemPrompt, 1)

/-- The parsed body of a `POST /api/generate-im` request
(`request.json()`), with absent/`null` members as `none`. -/
structure IMRequestBody where
  companyInfo : Option CompanyInfo
  ddqResult : Option DDQResult
  extractedText : Option String

/-- An HTTP response of the route: status and either the `IMResult` payload
or the JSON error message. -/
structure IMRouteResponse where
  status : Nat
  payload : Except String IMResult

/-- The `POST` handler of `app/api/generate-im/route.ts`
(`src/unnamed/part_006`): environment-variable check (500), presence check
of `companyInfo` and `ddqResult` (400), then `generateIM` with its error
mapped to 500.  The second component counts LLM Gateway calls. -/
def postGenerateIM (env : IMEnv) (body : IMRequestBody) :
    IMRouteResponse × Nat :=
  if !env.openaiKey ∧ !env.anthropicKey then
    ({ status := 500,
       payload := .error "API key not configured. Please set OPENAI_API_KEY or ANTHROPIC_API_KEY environment variable." }, 0)
  else
    match body.companyInfo, body.ddqResult with
    | some info, some ddq =>
      (match generateIM env info ddq body.extractedText with
       | (.ok im, n) => ({ status := 200, payload := .ok im }, n)
       | (.error e, n) => ({ status := 500, payload := .error e }, n))
    | _, _ =>
      ({ status := 400,
         payload := .error "Company information and DDQ results are required" }, 0)

/-! ## Concrete scenario environments used by witnesses and
counterexamples -/

/-- A research provider that fails on exactly one of the five track-record
topics (the audit/restatement one) and returns a positive finding — free of
every negative-result phrase — on all others. -/
def respondOneFailure : SearchProvider := fun fullQuery =>
  if fullQuery = "Acme financial audit qualified opinion restatement" then
    .error ()
  else
    .ok "Regulatory filings show specific incidents in 2019."

/-- A research provider that always returns the same positive finding. -/
def respondAllOk : SearchProvider := fun _ =>
  .ok "Specific, verifiable facts were found."

/-- An OpenAI backend stub whose content identifies it. -/
def openaiStubBackend : Backend := fun _ _ =>
  .ok { content := "OPENAI CONTENT" }

/-- An Anthropic backend stub whose content identifies it. -/
def anthropicStubBackend : Backend := fun _ _ =>
  .ok { content := "ANTHROPIC CONTENT" }

/-- An LLM environment with an OpenAI credential but no Anthropic
credential. -/
def envOpenaiOnly : LLMEnv :=
  { openaiKey := true, anthropicKey := false,
    openaiBackend := openaiStubBackend,
    anthropicBackend := anthropicStubBackend }

/-- An LLM environment with no credential at all. -/
def envNoKeys : LLMEnv :=
  { openaiKey := false, anthropicKey := false,
    openaiBackend := openaiStubBackend,
    anthropicBackend := anthropicStubBackend }

/-- A process state where no local `ESG_RMF.txt` candidate exists, the
process is *not* in production mode, and the network copy is present and
non-empty. -/
def worldDevNoLocal : RMFWorld :=
  { localFiles := [.absent, .absent, .absent],
    production := false,
    fetchResult := .ok "FRAMEWORK TEXT" }

/-- A process state whose first local candidate is readable but empty. -/
def worldEmptyFile : RMFWorld :=
  { localFiles := [.readable "", .absent, .absent],
    production := false,
    fetchResult := .error "network unavailable" }

/-- A process state whose first local candidate holds the framework. -/
def worldLocalOk : RMFWorld :=
  { localFiles := [.readable "RMF BODY", .absent, .absent],
    production := false,
    fetchResult := .error "network unavailable" }

/-- A production process state with no local candidate and a working
network copy. -/
def worldProdFetch : RMFWorld :=
  { localFiles := [.absent, .absent, .absent],
    production := true,
    fetchResult := .ok "NETWORK TEXT" }

/-- The first successful local candidate `loadRMF` would read, if any:
the first existing path, provided it is readable. -/
def localProvides (w : RMFWorld) : Option String :=
  match w.localFiles.find? PathState.found with
  | some (.readable c) => some c
  | _ => none

/-- The text the fetch fallback would yield, if any: a 2xx body that is
not blank. -/
def fetchProvides (w : RMFWorld) : Option String :=
  match w.fetchResult with
  | .ok t => if t = "" ∨ jsTrim t = "" then none else some t
  | .error _ => none

/-- A `CompanyInfo` used by concrete scenarios (the golden profile of the
spec's end-to-end test). -/
def acmeProfile : CompanyInfo :=
  { companyName := "Acme Health", sector := "Healthcare",
    subSector := "Telemedicine",
    countriesOfOperation := ["Vietnam", "Singapore", "Thailand"],
    numberOfEmployees := "50-100",
    businessActivities := "Remote consultations",
    productDescription := "Telehealth platform" }

/-- A rubric row used by the canonical payload below. -/
def policyRow : DDQAssessment :=
  { area := "ESG Policy", definition := "d", materiality := "High",
    level := "Level 0", comments := "c" }

/-- A canonical `DDQResult` payload for gateway stubs. -/
def canonicalDDQ : DDQResult :=
  { riskManagement := [policyRow], environment := [], social := [],
    governance := [],
    trackRecord := { regulatoryBreaches := some "None" } }

/-- A canonical `IMResult` payload for gateway stubs. -/
def canonicalIM : IMResult :=
  { companyName := "Acme Health", productActivitySolution := "p",
    riskCategory := "Category B", grievanceRedressMechanism := "g",
    sector := "Healthcare", subSector := "Telemedicine",
    countriesOfOperation := "Vietnam, Singapore, Thailand",
    numberOfEmployees := "50-100", currentRisks := [],
    currentOpportunities := [], longTermRisks := [],
    longTermOpportunities := [], foundersCommitment := "f",
    stakeholderConsultations := "s", potentialGrievances := "pg",
    riskOfRetaliation := "r", gaps := [], actionPlan := [] }

/-- An `IMEnv` with a working gateway stub and configured key. -/
def imEnvOk : IMEnv :=
  { openaiKey := true, anthropicKey := false,
    rmf := .ok "RMF BODY",
    callJSON := fun _ _ => .ok canonicalIM }

/-! # Theorems

Shared helper lemmas first, then one theorem (plus witness or
counterexample where required) per verified claim. -/

theorem mapGet_mapSet {α : Type} (m : List (String × α)) (k k' : String)
    (v : α) :
    mapGet (mapSet m k v) k' = if k' = k then some v else mapGet m k' := by
  induction m with
  | nil =>
    by_cases h : k' = k
    · simp [mapSet, mapGet, h]
    · have h' : ¬ k = k' := fun hh => h hh.symm
      simp [mapSet, mapGet, h, h']
  | cons p m ih =>
    by_cases hpk : p.1 = k
    · by_cases hk' : k' = k
      · simp [mapSet, mapGet, hpk, hk']
      · have hkk' : ¬ k = k' := fun hh => hk' hh.symm
        have hpk' : ¬ p.1 = k' := by rw [hpk]; exact hkk'
        simp [mapSet, mapGet, hpk, hk', hkk', hpk']
    · by_cases hpk' : p.1 = k'
      · have hne : ¬ k' = k := fun h => hpk (h ▸ hpk')
        simp [mapSet, mapGet, hpk, hpk', hne]
      · simp [mapSet, mapGet, hpk, hpk', ih]

theorem mapGet_append {α : Type} (m₁ m₂ : List (String × α)) (k : String) :
    mapGet (m₁ ++ m₂) k =
      match mapGet m₁ k with
      | some v => some v
      | none => mapGet m₂ k := by
  induction m₁ with
  | nil => simp [mapGet]
  | cons p m ih =>
    by_cases h : p.1 = k <;> simp [mapGet, h, ih]

theorem mapSet_fresh {α : Type} (m : List (String × α)) (k : String) (v : α)
    (h : mapGet m k = none) : mapSet m k v = m ++ [(k, v)] := by
  induction m with
  | nil => simp [mapSet]
  | cons p m ih =>
    rw [mapGet] at h
    by_cases hpk : p.1 = k
    · simp [hpk] at h
    · simp only [mapSet, hpk, if_false, List.cons_append, List.cons.injEq,
        true_and]
      exact ih (by simpa [hpk] using h)

theorem foldl_mapSet_get {α : Type} (entry : String → α) (qs : List String)
    (acc : List (String × α)) (q : String) :
    mapGet (qs.foldl (fun m x => mapSet m x (entry x)) acc) q =
      if q ∈ qs then some (entry q) else mapGet acc q := by
  induction qs generalizing acc with
  | nil => simp
  | cons q0 qs ih =>
    rw [List.foldl_cons, ih]
    by_cases hqs : q ∈ qs
    · simp [hqs]
    · by_cases hq0 : q = q0
      · simp [hqs, hq0, mapGet_mapSet]
      · simp [hqs, hq0, mapGet_mapSet]

theorem foldl_mapSet_eq_append {α : Type} (entry : String → α)
    (qs : List String) (acc : List (String × α)) (hnd : qs.Nodup)
    (hfresh : ∀ q ∈ qs, mapGet acc q = none) :
    qs.foldl (fun m x => mapSet m x (entry x)) acc =
      acc ++ qs.map (fun q => (q, entry q)) := by
  induction qs generalizing acc with
  | nil => simp
  | cons q0 qs ih =>
    rw [List.foldl_cons,
      mapSet_fresh acc q0 (entry q0) (hfresh q0 (List.mem_cons_self q0 qs)),
      ih (acc ++ [(q0, entry q0)]) (List.Nodup.of_cons hnd)]
    · simp
    · intro q hq
      rw [mapGet_append, hfresh q (List.mem_cons_of_mem q0 hq)]
      have hne : ¬ ((q0 : String) = q) := by
        intro h
        exact (List.nodup_cons.mp hnd).1 (h ▸ hq)
      simp [mapGet, hne]

theorem map_congr_on {α β : Type} (l : List α) (f g : α → β)
    (h : ∀ a ∈ l, f a = g a) : l.map f = l.map g := by
  induction l with
  | nil => rfl
  | cons a l ih =>
    rw [List.map_cons, List.map_cons, h a (List.mem_cons_self a l),
      ih (fun b hb => h b (List.mem_cons_of_mem a hb))]

theorem map_fst_pairs {α β : Type} (f : α → β) (l : List α) :
    (l.map (fun q => (q, f q))).map Prod.fst = l := by
  induction l with
  | nil => rfl
  | cons a l ih => simp [ih]

theorem searchCompanyInfo_get (companyName : String) (queries : List String)
    (respond : SearchProvider) (timestamp : String) (q : String) :
    mapGet (searchCompanyInfo companyName queries respond timestamp) q =
      if q ∈ queries then some (searchEntry companyName respond timestamp q)
      else none := by
  rw [searchCompanyInfo,
    foldl_mapSet_get (searchEntry companyName respond timestamp) queries [] q]
  rfl

theorem searchCompanyInfo_eq_map (companyName : String)
    (queries : List String) (respond : SearchProvider) (timestamp : String)
    (hnd : queries.Nodup) :
    searchCompanyInfo companyName queries respond timestamp =
      queries.map
        (fun q => (q, searchEntry companyName respond timestamp q)) := by
  rw [searchCompanyInfo,
    foldl_mapSet_eq_append (searchEntry companyName respond timestamp)
      queries [] hnd (fun q _ => rfl)]
  rfl

theorem searchEntry_query (companyName : String) (respond : SearchProvider)
    (timestamp q : String) :
    (searchEntry companyName respond timestamp q).query =
      companyName ++ " " ++ q := by
  rw [searchEntry]
  cases respond (companyName ++ " " ++ q) <;> rfl

theorem searchEntry_results_len (companyName : String)
    (respond : SearchProvider) (timestamp q : String) :
    (searchEntry companyName respond timestamp q).results.length ≤ 1 := by
  rw [searchEntry]
  cases respond (companyName ++ " " ++ q) with
  | error e => simp
  | ok content =>
    simp only [parseSearchContent]
    split <;> simp

/-- C1: for every company profile and extracted text, `generateDDQ` returns
the value parsed from the LLM response unchanged — with a stubbed gateway
returning an arbitrary `DDQResult` payload (however malformed its area
lists), the engine returns exactly that payload: it performs no
validation, repair or modification after parsing. -/
theorem C1_generateDDQ_pass_through (rmf : String) (respond : SearchProvider)
    (timestamp : String) (info : CompanyInfo) (extractedText : Option String)
    (payload : DDQResult) :
    generateDDQ
      { rmf := .ok rmf, respond := respond, timestamp := timestamp,
        callJSON := fun _ _ => .ok payload }
      info extractedText = .ok payload := rfl

/-- C2: a per-topic provider failure never aborts the batch — every topic
of the batch gets exactly one entry, a failed topic's entry has an empty
result list, a successful topic's entry carries exactly what the provider
response parsed to; and in the concrete 5-topic batch with exactly one
failing query the bundle has 5 entries of which exactly 1 has zero
results. -/
theorem C2_per_topic_failure_isolation :
    (∀ (companyName : String) (queries : List String)
        (respond : SearchProvider) (timestamp q : String), q ∈ queries →
      mapGet (searchCompanyInfo companyName queries respond timestamp) q =
        some (searchEntry companyName respond timestamp q)) ∧
    (∀ (companyName : String) (respond : SearchProvider) (timestamp q : String),
      respond (companyName ++ " " ++ q) = .error () →
      (searchEntry companyName respond timestamp q).results = []) ∧
    (∀ (companyName : String) (respond : SearchProvider)
        (timestamp q content : String),
      respond (companyName ++ " " ++ q) = .ok content →
      (searchEntry companyName respond timestamp q).results =
        parseSearchContent (companyName ++ " " ++ q) content) ∧
    ((searchCompanyInfo "Acme" trackRecordQueries respondOneFailure "T0").length = 5 ∧
      ((searchCompanyInfo "Acme" trackRecordQueries respondOneFailure "T0").filter
        (fun p => p.2.results.length = 0)).length = 1) := by
  refine ⟨?_, ?_, ?_, by decide, by decide⟩
  · intro companyName queries respond timestamp q hq
    rw [searchCompanyInfo_get]
    simp [hq]
  · intro companyName respond timestamp q h
    rw [searchEntry, h]
  · intro companyName respond timestamp q content h
    rw [searchEntry, h]

/-- Witness for C2 at the concrete 5-topic scenario: the failing topic is
present in the batch and its entry is the one `searchEntry` describes
(whose result list is empty, by the second component). -/
theorem C2_witness :
    mapGet (searchCompanyInfo "Acme" trackRecordQueries respondOneFailure "T0")
        "financial audit qualified opinion restatement" =
      some (searchEntry "Acme" respondOneFailure "T0"
        "financial audit qualified opinion restatement") ∧
    (searchEntry "Acme" respondOneFailure "T0"
        "financial audit qualified opinion restatement").results = [] :=
  ⟨C2_per_topic_failure_isolation.1 "Acme" trackRecordQueries
      respondOneFailure "T0" _ (by decide),
    C2_per_topic_failure_isolation.2.1 "Acme" respondOneFailure "T0"
      "financial audit qualified opinion restatement" (by rfl)⟩

/-- C7: the Evidence Gatherer's response parsing — a topic yields zero
results exactly when the lowercased response contains one of the fixed
negative-result phrases, and otherwise yields exactly one result whose
snippet is the entire response text with the fixed default relevance
score 0.8. -/
theorem C7_parseSearchContent_spec (fullQuery content : String) :
    parseSearchContent fullQuery content =
      if negativePhrases.any (fun p => jsIncludes (asciiLower content) p) then
        []
      else
        [{ title := "Search Results: " ++ fullQuery,
           url := "OpenAI Knowledge Base", snippet := content,
           relevanceScore := some (0.8 : ℚ) }] := by
  rw [parseSearchContent]
  simp only [negativePhrases, List.any_cons, List.any_nil, Bool.or_false,
    Bool.or_assoc]

/-- C10: for every company name and list of distinct topics, the returned
bundle has exactly one entry keyed by each input topic (its key list *is*
the topic list), each entry's stored query is the company name, one space,
then the topic, and each entry's result list has length at most 1. -/
theorem C10_bundle_shape_invariant (companyName : String)
    (queries : List String) (respond : SearchProvider) (timestamp : String)
    (hnd : queries.Nodup) :
    ((searchCompanyInfo companyName queries respond timestamp).map
        Prod.fst = queries) ∧
    (∀ q ∈ queries, ∃ e,
      mapGet (searchCompanyInfo companyName queries respond timestamp) q =
          some e ∧
        e.query = companyName ++ " " ++ q ∧ e.results.length ≤ 1) := by
  constructor
  · rw [searchCompanyInfo_eq_map companyName queries respond timestamp hnd]
    exact map_fst_pairs (searchEntry companyName respond timestamp) queries
  · intro q hq
    refine ⟨searchEntry companyName respond timestamp q, ?_,
      searchEntry_query companyName respond timestamp q,
      searchEntry_results_len companyName respond timestamp q⟩
    rw [searchCompanyInfo_get]
    simp [hq]

/-- Witness for C10 at the concrete track-record batch. -/
theorem C10_witness :
    ((searchCompanyInfo "Acme" trackRecordQueries respondAllOk "T0").map
        Prod.fst = trackRecordQueries) ∧
    (∀ q ∈ trackRecordQueries, ∃ e,
      mapGet (searchCompanyInfo "Acme" trackRecordQueries respondAllOk "T0") q =
          some e ∧
        e.query = "Acme" ++ " " ++ q ∧ e.results.length ≤ 1) :=
  C10_bundle_shape_invariant "Acme" trackRecordQueries respondAllOk "T0"
    (by decide)

/-- C3 counterexample: the raw response `null` strips and trims to itself,
has no brace span, and JSON-parses *successfully* to the top-level `null`
value — yet the extractor raises the Invalid-JSON error with the raw
preview instead of returning the parsed value: the success-path log line
evaluates `Object.keys(parsed)` inside the `try`, `Object.keys(null)`
throws, and the inner `catch` converts the throw to the same diagnostic
raised on parse failure.  So "JSON-parse the span; on parse failure raise
the error" is not the whole error behavior of the extractor. -/
theorem C3_counterexample :
    jsonParse (extractBraceSpan (jsTrim (stripJsonFences "null"))) =
      some Json.null ∧
    parseLLMJSONContent "null" =
      .error "Invalid JSON response from LLM. Response preview: null..." :=
  ⟨rfl, rfl⟩

/-- C3 as amended: the extractor proceeds by fence stripping, trimming,
greedy first-open-brace-to-last-close-brace span selection, then JSON
parsing; it raises the error carrying the first 200 characters of the raw
response on parse failure *and also* when the span parses to top-level
JSON `null` (the success-path log dereferences the parsed value, and
`Object.keys(null)` throws into the same `catch`); every other
successfully parsed value is returned.  On
`Here is the result: \x7b"a":1\x7d Thanks!` it selects the span
`\x7b"a":1\x7d` and parses the object successfully, discarding the
surrounding prose. -/
theorem C3_extractor_pipeline :
    (∀ raw : String, parseLLMJSONContent raw =
      if jsTrim raw = "" then .error "LLM returned empty response"
      else
        match jsonParse (extractBraceSpan (jsTrim (stripJsonFences raw))) with
        | some .null =>
          .error ("Invalid JSON response from LLM. Response preview: " ++
            jsTake raw 200 ++ "...")
        | some v => .ok v
        | none =>
          .error ("Invalid JSON response from LLM. Response preview: " ++
            jsTake raw 200 ++ "...")) ∧
    (∀ (env : LLMEnv) (prompt : String) (systemPrompt : Option String)
        (provider : LLMProvider),
      callLLMJSON env prompt systemPrompt provider =
        match callLLM env
            (prompt ++ "\n\nRespond with valid JSON only, no markdown formatting.")
            systemPrompt provider with
        | .error e => .error e
        | .ok response => parseLLMJSONContent response.content) ∧
    extractBraceSpan "Here is the result: \x7b\"a\":1\x7d Thanks!" =
      "\x7b\"a\":1\x7d" ∧
    parseLLMJSONContent "Here is the result: \x7b\"a\":1\x7d Thanks!" =
      .ok (Json.obj [("a", Json.num 1)]) ∧
    parseLLMJSONContent "no json at all" =
      .error
        "Invalid JSON response from LLM. Response preview: no json at all..." :=
  ⟨fun _ => rfl, fun _ _ _ _ => rfl, rfl, rfl, rfl⟩

/-- C4 counterexample: with an OpenAI credential configured and no
Anthropic credential, explicitly selecting the `anthropic` provider does
*not* fail with an authentication error — the call silently runs on the
OpenAI backend and succeeds with its content. -/
theorem C4_counterexample :
    callLLM envOpenaiOnly "prompt" none .anthropic =
      .ok { content := "OPENAI CONTENT" } := rfl

/-- C4 as amended: provider selection is an explicit caller input and
there is no fallback away from the OpenAI path — but selecting
`anthropic` without an Anthropic credential silently falls back to the
OpenAI backend; the gateway fails with `OPENAI_API_KEY is not set`
exactly when the effective path is OpenAI (openai selected, or anthropic
selected without its key) and no OpenAI credential is configured, and
the OpenAI path never consults the Anthropic key or backend. -/
theorem C4_provider_selection_amended :
    (∀ (env : LLMEnv) (prompt : String) (systemPrompt : Option String),
      env.anthropicKey = true →
      callLLM env prompt systemPrompt .anthropic =
        match env.anthropicBackend prompt systemPrompt with
        | .ok r => .ok r
        | .error e => .error (classifyLLMError .anthropic e)) ∧
    (∀ (env : LLMEnv) (prompt : String) (systemPrompt : Option String)
        (provider : LLMProvider),
      env.openaiKey = false →
      (provider = .openai ∨ env.anthropicKey = false) →
      callLLM env prompt systemPrompt provider =
        .error "OPENAI_API_KEY is not set") ∧
    (∀ (env₁ env₂ : LLMEnv) (prompt : String) (systemPrompt : Option String),
      env₁.openaiKey = env₂.openaiKey →
      env₁.openaiBackend = env₂.openaiBackend →
      callLLM env₁ prompt systemPrompt .openai =
        callLLM env₂ prompt systemPrompt .openai) := by
  refine ⟨?_, ?_, ?_⟩
  · intro env prompt systemPrompt h
    simp [callLLM, h]
  · intro env prompt systemPrompt provider hkey hsel
    have hcond : ¬ (provider = .anthropic ∧ env.anthropicKey = true) := by
      rcases hsel with h | h
      · rintro ⟨h1, -⟩
        rw [h] at h1
        exact LLMProvider.noConfusion h1
      · rintro ⟨-, h2⟩
        rw [h] at h2
        exact Bool.false_ne_true h2
    have hmsg : ∀ p : LLMProvider,
        classifyLLMError p "OPENAI_API_KEY is not set" =
          "OPENAI_API_KEY is not set" := by
      intro p
      cases p <;> rfl
    simp [callLLM, hcond, hkey, hmsg]
  · intro env₁ env₂ prompt systemPrompt h1 h2
    simp [callLLM, h1, h2]

/-- Witness for the amended C4: with no credential at all, selecting
`anthropic` fails with the missing-OpenAI-key error (having fallen back
to the OpenAI path). -/
theorem C4_witness :
    callLLM envNoKeys "prompt" none .anthropic =
      .error "OPENAI_API_KEY is not set" :=
  C4_provider_selection_amended.2.1 envNoKeys "prompt" none .anthropic rfl
    (Or.inr rfl)

/-- C8: for every request whose body has a null/absent `ddqResult`, the IM
route fails fast with an error response (HTTP 400, or 500 from the earlier
configuration check) and performs no LLM Gateway call at all. -/
theorem C8_im_requires_ddq (env : IMEnv) (body : IMRequestBody)
    (h : body.ddqResult = none) :
    (postGenerateIM env body).2 = 0 ∧
    ((postGenerateIM env body).1.status = 400 ∨
      (postGenerateIM env body).1.status = 500) ∧
    ∃ msg, (postGenerateIM env body).1.payload = .error msg := by
  rw [postGenerateIM]
  split
  · exact ⟨rfl, Or.inr rfl, _, rfl⟩
  · rw [h]
    cases body.companyInfo <;>
      exact ⟨rfl, Or.inl rfl, _, rfl⟩

/-- Witness for C8: a concrete request with a profile but no DDQ result is
rejected with no LLM call. -/
theorem C8_witness :
    (postGenerateIM imEnvOk
        { companyInfo := some acmeProfile, ddqResult := none,
          extractedText := none }).2 = 0 ∧
    ((postGenerateIM imEnvOk
        { companyInfo := some acmeProfile, ddqResult := none,
          extractedText := none }).1.status = 400 ∨
      (postGenerateIM imEnvOk
        { companyInfo := some acmeProfile, ddqResult := none,
          extractedText := none }).1.status = 500) ∧
    ∃ msg, (postGenerateIM imEnvOk
        { companyInfo := some acmeProfile, ddqResult := none,
          extractedText := none }).1.payload = .error msg :=
  C8_im_requires_ddq imEnvOk
    { companyInfo := some acmeProfile, ddqResult := none,
      extractedText := none } rfl

theorem rmfFetchPhase_prod (w : RMFWorld) (cache : Option String)
    (hw : w.production = true) :
    (rmfFetchPhase w cache).1 =
      match fetchProvides w with
      | some t => .ok t
      | none => .error rmfUnavailableMsg := by
  rw [rmfFetchPhase, hw]
  cases hf : w.fetchResult with
  | ok t =>
    by_cases hb : (t = "" ∨ jsTrim t = "")
    · simp [hb, fetchProvides, hf]
    · simp [hb, fetchProvides, hf]
  | error e => simp [fetchProvides, hf]

theorem rmfFetchPhase_nonprod (w : RMFWorld) (cache : Option String)
    (hw : w.production = false) :
    rmfFetchPhase w cache = (.error rmfUnavailableMsg, cache, 0) := by
  rw [rmfFetchPhase, hw]
  simp

theorem rmfFetchPhase_ok_cache (w : RMFWorld) (cache : Option String)
    (s : String) : (rmfFetchPhase w cache).1 = .ok s →
    (rmfFetchPhase w cache).2.1 = some s := by
  rw [rmfFetchPhase]
  cases hp : w.production with
  | false =>
    intro h
    simp at h
  | true =>
    cases hf : w.fetchResult with
    | error e =>
      intro h
      simp at h
    | ok t =>
      by_cases hb : (t = "" ∨ jsTrim t = "")
      · intro h
        simp [hb] at h
      · intro h
        simp [hb] at h
        subst h
        simp [hb]

theorem loadRMF_ok_cache (w : RMFWorld) (s : String) :
    (loadRMF w none).1 = .ok s → (loadRMF w none).2.1 = some s := by
  rw [loadRMF, if_neg (by simp [jsTruthyCache])]
  cases hfind : w.localFiles.find? PathState.found with
  | none => exact rmfFetchPhase_ok_cache w none s
  | some ps =>
    cases ps with
    | readable c =>
      intro h
      simp at h
      simp [h]
    | absent => exact rmfFetchPhase_ok_cache w none s
    | unreadable => exact rmfFetchPhase_ok_cache w none s

/-- C5 counterexample: in a non-production process with no readable local
candidate, `loadRMF` fails with the knowledge-base-unavailable error and
performs *zero* network fetches — even though the network copy exists and
is non-empty, so the network path has not failed; the loader does not
fall back to it. -/
theorem C5_counterexample :
    worldDevNoLocal.fetchResult = .ok "FRAMEWORK TEXT" ∧
    loadRMF worldDevNoLocal none =
      (.error rmfUnavailableMsg, none, ⟨0, 0⟩) := ⟨rfl, rfl⟩

/-- C5 as amended: on first call the loader probes the ordered local
candidates; **only in production mode** does it fall back to the network
copy — there it fails only when both the local candidates and the network
path have failed; outside production it fails as soon as the local
candidates fail, performing no network fetch at all. -/
theorem C5_fallback_order_amended :
    (∀ w : RMFWorld, w.production = true →
      (loadRMF w none).1 =
        match localProvides w with
        | some c => .ok c
        | none =>
          match fetchProvides w with
          | some t => .ok t
          | none => .error rmfUnavailableMsg) ∧
    (∀ w : RMFWorld, w.production = false →
      ((loadRMF w none).1 =
        match localProvides w with
        | some c => .ok c
        | none => .error rmfUnavailableMsg) ∧
      (loadRMF w none).2.2.fetches = 0) := by
  constructor
  · intro w hw
    rw [loadRMF, if_neg (by simp [jsTruthyCache])]
    cases hfind : w.localFiles.find? PathState.found with
    | none =>
      simp only [localProvides, hfind]
      exact rmfFetchPhase_prod w none hw
    | some ps =>
      cases ps with
      | readable c => simp [localProvides, hfind]
      | absent =>
        simp only [localProvides, hfind]
        exact rmfFetchPhase_prod w none hw
      | unreadable =>
        simp only [localProvides, hfind]
        exact rmfFetchPhase_prod w none hw
  · intro w hw
    rw [loadRMF, if_neg (by simp [jsTruthyCache])]
    cases hfind : w.localFiles.find? PathState.found with
    | none =>
      simp [localProvides, hfind, rmfFetchPhase_nonprod w none hw]
    | some ps =>
      cases ps with
      | readable c => simp [localProvides, hfind]
      | absent =>
        simp [localProvides, hfind, rmfFetchPhase_nonprod w none hw]
      | unreadable =>
        simp [localProvides, hfind, rmfFetchPhase_nonprod w none hw]

/-- Witness for the amended C5: a production process with no local
candidate loads the framework over the network. -/
theorem C5_witness :
    (loadRMF worldProdFetch none).1 = .ok "NETWORK TEXT" :=
  (C5_fallback_order_amended.1 worldProdFetch rfl).trans (by rfl)

/-- C6 counterexample: when the readable local file is *empty*, the first
call succeeds (returning `""`) but the falsy cache check re-reads on the
second call — two underlying file reads across the two calls, not one,
and the claimed no-further-read memoization fails. -/
theorem C6_counterexample :
    loadRMFTwice worldEmptyFile = (.ok "", .ok "", ⟨2, 0⟩) := rfl

/-- C6 as amended: memoization holds for every *non-empty* loaded text
(JavaScript truthiness caches nothing on `""`): after a first successful
load of a non-empty string, the second call returns the same cached string
with zero further reads and zero fetches; and when the first existing
local candidate is readable and non-empty, the two calls together perform
exactly one underlying read and no fetch. -/
theorem C6_memoized_amended :
    (∀ (w : RMFWorld) (s : String), (loadRMF w none).1 = .ok s → s ≠ "" →
      loadRMF w ((loadRMF w none).2.1) = (.ok s, some s, ⟨0, 0⟩)) ∧
    (∀ (w : RMFWorld) (s : String),
      w.localFiles.find? PathState.found = some (.readable s) → s ≠ "" →
      loadRMFTwice w = (.ok s, .ok s, ⟨1, 0⟩)) := by
  constructor
  · intro w s h hs
    rw [loadRMF_ok_cache w s h]
    rw [loadRMF, if_pos (by simp [jsTruthyCache, hs])]
    rfl
  · intro w s hfind hs
    have h1 : loadRMF w none = (.ok s, some s, ⟨1, 0⟩) := by
      rw [loadRMF, if_neg (by simp [jsTruthyCache]), hfind]
    rw [loadRMFTwice]
    simp only [h1]
    rw [loadRMF, if_pos (by simp [jsTruthyCache, hs])]
    rfl

/-- Witness for the amended C6: with a readable non-empty framework file,
two calls return the same text and perform exactly one read. -/
theorem C6_witness :
    loadRMFTwice worldLocalOk = (.ok "RMF BODY", .ok "RMF BODY", ⟨1, 0⟩) :=
  C6_memoized_amended.2 worldLocalOk "RMF BODY" rfl (by decide)

theorem foldl_evidenceStep (companyName : String) (respond : SearchProvider)
    (timestamp : String) (sched : List EvidenceBatch)
    (acc : Option (List SearchResults) × Option (List SearchResults)) :
    sched.foldl (evidenceStep companyName respond timestamp) acc =
      ((if .track ∈ sched then
          some (runEvidenceBatch companyName respond timestamp .track)
        else acc.1),
       (if .esg ∈ sched then
          some (runEvidenceBatch companyName respond timestamp .esg)
        else acc.2)) := by
  induction sched generalizing acc with
  | nil => simp
  | cons b sched ih =>
    cases b <;> rw [List.foldl_cons, ih] <;>
      simp [evidenceStep, List.mem_cons, ite_self]

/-- C9 counterexample: two runs whose evidence batches complete in
opposite orders produce *identical* merged evidence lists — and the run in
which the practices batch completed first still lists every track-record
entry first: the final order is not nondeterministic across runs. -/
theorem C9_counterexample :
    mergedEvidence "Acme" respondAllOk "T0" [.track, .esg] =
      mergedEvidence "Acme" respondAllOk "T0" [.esg, .track] ∧
    mergedEvidence "Acme" respondAllOk "T0" [.esg, .track] =
      some (searchTrackRecord "Acme" respondAllOk "T0" ++
        searchESGPractices "Acme" respondAllOk "T0") := ⟨rfl, rfl⟩

/-- C9 as amended: the two Evidence Gatherer batches are dispatched
concurrently and race, but `Promise.all` collects their results
positionally, so for *every* completion schedule in which both batches
settle the merged evidence list is the same — all track-record entries
followed by all practices entries — and within each batch the entries
preserve the fixed topic-list order. -/
theorem C9_merge_order_amended :
    (∀ (companyName : String) (respond : SearchProvider) (timestamp : String)
        (sched : List EvidenceBatch),
      .track ∈ sched → .esg ∈ sched →
      mergedEvidence companyName respond timestamp sched =
        some (searchTrackRecord companyName respond timestamp ++
          searchESGPractices companyName respond timestamp)) ∧
    (∀ (companyName : String) (respond : SearchProvider) (timestamp : String),
      (searchTrackRecord companyName respond timestamp).map
          SearchResults.query =
        trackRecordQueries.map (fun q => companyName ++ " " ++ q) ∧
      (searchESGPractices companyName respond timestamp).map
          SearchResults.query =
        esgQueries.map (fun q => companyName ++ " " ++ q)) := by
  constructor
  · intro companyName respond timestamp sched ht he
    rw [mergedEvidence, promiseAllEvidence]
    simp only [foldl_evidenceStep, ht, he, if_pos]
    rfl
  · intro companyName respond timestamp
    constructor
    · rw [searchTrackRecord, List.map_map,
        searchCompanyInfo_eq_map companyName trackRecordQueries respond
          timestamp (by decide), List.map_map]
      exact map_congr_on _ _ _
        (fun q _ => by simp [Function.comp, searchEntry_query])
    · rw [searchESGPractices, List.map_map,
        searchCompanyInfo_eq_map companyName esgQueries respond
          timestamp (by decide), List.map_map]
      exact map_congr_on _ _ _
        (fun q _ => by simp [Function.comp, searchEntry_query])

/-- Witness for the amended C9: a schedule where the practices batch
settles first still yields track-record entries first. -/
theorem C9_witness :
    mergedEvidence "Beta Corp" respondAllOk "T1" [.esg, .track] =
      some (searchTrackRecord "Beta Corp" respondAllOk "T1" ++
        searchESGPractices "Beta Corp" respondAllOk "T1") :=
  C9_merge_order_amended.1 "Beta Corp" respondAllOk "T1" [.esg, .track]
    (by decide) (by decide)

end ESG
